import Mathlib

/-!
Verification development for the czmodel export notebook
(`train_simple_TF2_segmentation_model.ipynb`).

The notebook trains a small Keras segmentation model and exports it with the
`czmodel` helper library.  The data-loading and model-definition cells are
embedded directly from the notebook source.  The `czmodel` library itself
(`convert_from_model_spec`, `convert_from_json_spec`, `PerImageStandardization`,
`add_preprocessing_layers`, `ModelMetadata`, `ModelSpec`) ships as an external
package whose code is not part of this repository, so those operations are
modelled from the specification document, as noted on each definition.
-/

/-- Color-handling policy enum of the model metadata.
Modelled from the spec: "color-handling policy (enum: e.g. convert-to-monochrome
vs. keep-as-is)"; the czmodel package defining it is not in this repository. -/
inductive ColorHandling where
  | convertToMonochrome
  | keepAsIs
deriving DecidableEq, Repr

/-- Pixel-type enum of the model metadata.
Modelled from the spec: "pixel type (enum describing bit depth/channel
semantics)"; the czmodel package defining it is not in this repository. -/
inductive PixelType where
  | gray8
  | gray16
  | bgr24
deriving DecidableEq, Repr

/-- Parse the external string form of a `ColorHandling` value; unsupported
strings are rejected. -/
def parseColorHandling (s : String) : Option ColorHandling :=
  if s = "ConvertToMonochrome" then some ColorHandling.convertToMonochrome
  else if s = "KeepAsIs" then some ColorHandling.keepAsIs
  else none

/-- Render a `ColorHandling` value back to its external string form. -/
def renderColorHandling : ColorHandling → String
  | ColorHandling.convertToMonochrome => "ConvertToMonochrome"
  | ColorHandling.keepAsIs => "KeepAsIs"

/-- Parse the external string form of a `PixelType` value; unsupported strings
are rejected. -/
def parsePixelType (s : String) : Option PixelType :=
  if s = "Gray8" then some PixelType.gray8
  else if s = "Gray16" then some PixelType.gray16
  else if s = "Bgr24" then some PixelType.bgr24
  else none

/-- Render a `PixelType` value back to its external string form. -/
def renderPixelType : PixelType → String
  | PixelType.gray8 => "Gray8"
  | PixelType.gray16 => "Gray16"
  | PixelType.bgr24 => "Bgr24"

/-- Model metadata record.
Modelled from the spec: "an immutable record describing how a trained model's
inputs/outputs map onto the host application's conventions. Fields: display
name, color-handling policy, pixel type, ordered list of class labels, border
size (non-negative integer)"; the czmodel `ModelMetadata` type is not in this
repository. -/
structure ModelMetadata where
  name : String
  colorHandling : ColorHandling
  pixelType : PixelType
  classes : List String
  borderSize : Nat
deriving DecidableEq, Repr

/-- The `ModelMetadata.from_params` constructor used by the notebook: it takes
the enum fields as external strings and rejects unsupported values.
Modelled from the spec: "unsupported pixel-type/color-handling enum value →
validation error"; the czmodel implementation is not in this repository. -/
def ModelMetadata.from_params (name color_handling pixel_type : String)
    (classes : List String) (border_size : Nat) : Option ModelMetadata :=
  match parseColorHandling color_handling, parsePixelType pixel_type with
  | some ch, some pt =>
      some { name := name, colorHandling := ch, pixelType := pt,
             classes := classes, borderSize := border_size }
  | _, _ => none

/-- Declared input shape of a Keras model: optional (possibly undefined)
spatial height/width and a channel count. -/
structure Shape where
  height : Option Nat
  width : Option Nat
  channels : Nat
deriving DecidableEq, Repr

/-- A layer of the (shallowly embedded) Keras model: the per-image
standardization preprocessing layer, a 2-D convolution with a filter count,
kernel size and activation, or a fixed-size input adapter layer. -/
inductive Layer where
  | perImageStandardization
  | conv2D (filters kernel : Nat) (activation : String)
  | inputLayer (h w : Nat)
deriving DecidableEq, Repr

/-- A Keras model, shallowly embedded as its declared input shape and its
layer list.  Everything else about the framework object is opaque. -/
structure KerasModel where
  inputShape : Shape
  layers : List Layer
deriving DecidableEq, Repr

/-- Channel count after one layer: a convolution outputs its filter count,
other layers leave the channel count unchanged. -/
def layerChannels (c : Nat) : Layer → Nat
  | Layer.conv2D f _ _ => f
  | _ => c

/-- Output channel count of a model: channels of the input threaded through
the layer list. -/
def outputChannels (m : KerasModel) : Nat :=
  m.layers.foldl layerChannels m.inputShape.channels

/-- Does a declared input shape accept an image of height `h` and width `w`?
An undefined spatial dimension accepts anything; a defined one accepts only
its own value. -/
def Shape.accepts (s : Shape) (h w : Nat) : Bool :=
  (match s.height with
   | none => true
   | some x => x == h)
  &&
  (match s.width with
   | none => true
   | some y => y == w)

/-- The `ModelSpec` pairing of a trained model with its metadata.
Modelled from the spec: "pairs a trained model (opaque, framework-owned) with
one ModelMetadata instance"; the czmodel `ModelSpec` type is not in this
repository. -/
structure ModelSpec where
  model : KerasModel
  model_metadata : ModelMetadata
deriving DecidableEq, Repr

/-- The fixed-size input adapter layers induced by optional target spatial
dimensions. -/
def adapterLayers : Option (Nat × Nat) → List Layer
  | some (h, w) => [Layer.inputLayer h w]
  | none => []

/-- The input shape after optionally fixing target spatial dimensions. -/
def adaptShape (s : Shape) : Option (Nat × Nat) → Shape
  | some (h, w) => { height := some h, width := some w, channels := s.channels }
  | none => s

/-- The `add_preprocessing_layers` helper.
Modelled from the spec: "a stateless helper that prepends a per-sample
normalization step and optionally a fixed-size input adapter to an existing
model, returning a new model object without mutating the original"; the
czmodel implementation is not in this repository. -/
def add_preprocessing_layers (m : KerasModel) (layers : Option (List Layer))
    (spatial_dims : Option (Nat × Nat)) : KerasModel :=
  { inputShape := adaptShape m.inputShape spatial_dims,
    layers := Layer.perImageStandardization ::
      (adapterLayers spatial_dims ++ layers.getD [] ++ m.layers) }

/-- The model actually serialized by the export operation: wrapped with the
preprocessing helper when target spatial dimensions are supplied, the original
model unchanged otherwise.
Modelled from the spec: "If target spatial dimensions are supplied, the
model's input is first wrapped so that it accepts exactly that fixed
height/width; if omitted, the model's existing input shape is used
unchanged." -/
def wrappedModel (m : KerasModel) : Option (Nat × Nat) → KerasModel
  | some d => add_preprocessing_layers m none (some d)
  | none => m

/-- XML metadata member content of the packaged artifact.
Modelled from the spec: "an XML description file embedding the ModelMetadata
fields plus the identifier". -/
structure XmlDescription where
  name : String
  borderSize : Nat
  colorHandling : String
  pixelType : String
  classes : List String
  modelId : String
deriving DecidableEq, Repr

/-- A member of the packaged archive: the guid marker file, the serialized
model file, or the XML description file. -/
inductive ArchiveMember where
  | marker (guid : String)
  | model (m : KerasModel)
  | xml (x : XmlDescription)
deriving DecidableEq, Repr

/-- A packaged archive: named members. -/
abbrev Archive := List (String × ArchiveMember)

/-- Render a `ModelMetadata` plus generated identifier into the XML member. -/
def xmlOf (md : ModelMetadata) (guid : String) : XmlDescription :=
  { name := md.name, borderSize := md.borderSize,
    colorHandling := renderColorHandling md.colorHandling,
    pixelType := renderPixelType md.pixelType,
    classes := md.classes, modelId := guid }

/-- Build the packaged archive contents.
Modelled from the spec: "writes the three archive members named/keyed by that
identifier": the guid marker member, the serialized-model member `<guid>.model`
and the XML member `<guid>.xml`. -/
def buildArchive (md : ModelMetadata) (m : KerasModel)
    (spatial_dims : Option (Nat × Nat)) (guid : String) : Archive :=
  [(guid, ArchiveMember.marker guid),
   (guid ++ ".model", ArchiveMember.model (wrappedModel m spatial_dims)),
   (guid ++ ".xml", ArchiveMember.xml (xmlOf md guid))]

/-- First serialized-model member of an archive, if any. -/
def archiveModel : Archive → Option KerasModel
  | [] => none
  | (_, ArchiveMember.model m) :: _ => some m
  | _ :: t => archiveModel t

/-- First XML member of an archive, if any. -/
def archiveXml : Archive → Option XmlDescription
  | [] => none
  | (_, ArchiveMember.xml x) :: _ => some x
  | _ :: t => archiveXml t

/-- A value in the flat key/value metadata document. -/
inductive JsonValue where
  | num (n : Nat)
  | str (s : String)
  | arr (l : List String)
deriving DecidableEq, Repr

/-- The flat key/value metadata document consumed by export-from-document. -/
abbrev JsonDoc := List (String × JsonValue)

/-- Look up a numeric key in a metadata document. -/
def getNum (doc : JsonDoc) (k : String) : Option Nat :=
  match doc.lookup k with
  | some (JsonValue.num n) => some n
  | _ => none

/-- Look up a string key in a metadata document. -/
def getStr (doc : JsonDoc) (k : String) : Option String :=
  match doc.lookup k with
  | some (JsonValue.str s) => some s
  | _ => none

/-- Look up a string-list key in a metadata document. -/
def getArr (doc : JsonDoc) (k : String) : Option (List String) :=
  match doc.lookup k with
  | some (JsonValue.arr l) => some l
  | _ => none

/-- The filesystem state threaded through the export operations: written
archives, on-disk saved-model directories, metadata documents, and the set of
writable output directories. -/
structure FileSystem where
  archives : List (String × Archive)
  savedModels : List (String × KerasModel)
  documents : List (String × JsonDoc)
  writableDirs : List String
deriving DecidableEq, Repr

/-- Errors of the export operations.
Modelled from the spec taxonomy: validation errors, I/O errors, parse errors
(with the offending key), and load errors for the referenced model path. -/
inductive ExportError where
  | validationError (msg : String)
  | ioError (path : String)
  | parseError (key : String)
  | loadError (path : String)
deriving DecidableEq, Repr

/-- Result of an export operation under explicit state passing: the error (if
any), the filesystem after the call, and the state of the caller's in-memory
model object after the call (tracked to express the no-mutation contract). -/
structure ExportResult where
  error : Option ExportError
  fs : FileSystem
  modelAfter : Option KerasModel
deriving DecidableEq, Repr

/-- Join a directory path and a file name, matching `os.path.join` on the
paths used by the notebook. -/
def joinPath (a b : String) : String :=
  if a.endsWith "/" then a ++ b else a ++ "/" ++ b

/-- The `convert_from_model_spec` export-from-spec operation.
Modelled from the spec: given a `ModelSpec`, an output directory, an output
base name and optional target spatial dimensions, validate that the class
count equals the model's output channel count (before any write), then write
exactly one archive `<base name>.czmodel` holding the three members keyed by a
freshly generated identifier (passed in here as `guid`); an unwritable output
directory surfaces an I/O error.  The czmodel implementation is not in this
repository. -/
def convert_from_model_spec (model_spec : ModelSpec)
    (output_path output_name : String) (spatial_dims : Option (Nat × Nat))
    (guid : String) (fs : FileSystem) : ExportResult :=
  if model_spec.model_metadata.classes.length ≠ outputChannels model_spec.model then
    { error := some (ExportError.validationError "class count mismatch"),
      fs := fs, modelAfter := some model_spec.model }
  else if fs.writableDirs.contains output_path then
    { error := none,
      fs := { fs with archives := fs.archives ++
        [(joinPath output_path (output_name ++ ".czmodel"),
          buildArchive model_spec.model_metadata model_spec.model spatial_dims guid)] },
      modelAfter := some model_spec.model }
  else
    { error := some (ExportError.ioError output_path),
      fs := fs, modelAfter := some model_spec.model }

/-- Parse a metadata document into a `ModelMetadata` plus the referenced model
path.
Modelled from the spec: "The document format is a flat key/value structure
(keys: border size, color-handling, pixel type, class list, model path)";
a malformed or missing required key is a parse error naming the key. -/
def parseModelMetadata (doc : JsonDoc) : Except ExportError (ModelMetadata × String) :=
  match getNum doc "BorderSize" with
  | none => Except.error (ExportError.parseError "BorderSize")
  | some b =>
    match getStr doc "ColorHandling" with
    | none => Except.error (ExportError.parseError "ColorHandling")
    | some chs =>
      match parseColorHandling chs with
      | none => Except.error (ExportError.parseError "ColorHandling")
      | some ch =>
        match getStr doc "PixelType" with
        | none => Except.error (ExportError.parseError "PixelType")
        | some pts =>
          match parsePixelType pts with
          | none => Except.error (ExportError.parseError "PixelType")
          | some pt =>
            match getArr doc "Classes" with
            | none => Except.error (ExportError.parseError "Classes")
            | some cls =>
              match getStr doc "ModelPath" with
              | none => Except.error (ExportError.parseError "ModelPath")
              | some mp =>
                Except.ok
                  ({ name := "", colorHandling := ch, pixelType := pt,
                     classes := cls, borderSize := b }, mp)

/-- The `convert_from_json_spec` export-from-document operation.
Modelled from the spec: locate the metadata document, parse its fields, load
the saved model referenced by `ModelPath`, construct an equivalent `ModelSpec`
and delegate to `convert_from_model_spec`; a missing document is an I/O error,
a malformed document a parse error, an unloadable model path a load error, and
every failure aborts before any output file is written.  The czmodel
implementation is not in this repository. -/
def convert_from_json_spec (model_spec_path output_path output_name : String)
    (spatial_dims : Option (Nat × Nat)) (guid : String) (fs : FileSystem) :
    ExportResult :=
  match fs.documents.lookup model_spec_path with
  | none => { error := some (ExportError.ioError model_spec_path),
              fs := fs, modelAfter := none }
  | some doc =>
    match parseModelMetadata doc with
    | Except.error e => { error := some e, fs := fs, modelAfter := none }
    | Except.ok (md, mp) =>
      match fs.savedModels.lookup mp with
      | none => { error := some (ExportError.loadError mp),
                  fs := fs, modelAfter := none }
      | some m =>
          convert_from_model_spec { model := m, model_metadata := md }
            output_path output_name spatial_dims guid fs

/-- The archive most recently written to the filesystem, if any. -/
def lastArchive (fs : FileSystem) : Option Archive :=
  fs.archives.getLast?.map Prod.snd

/-- The notebook's images directory constant (cell 6). -/
def IMAGES_FOLDER : String := "data/nuclei_images/"

/-- The notebook's masks directory constant (cell 6). -/
def MASKS_FOLDER : String := "data/nuclei_masks/"

/-- The notebook's channel-count constant (cell 6). -/
def CHANNELS : Nat := 1

/-- Insert a string into an already sorted list, keeping it sorted
lexicographically (the order used by Python's `sorted` on path strings). -/
def insertSorted (x : String) : List String → List String
  | [] => [x]
  | y :: ys => if (compare x y).isLE then x :: y :: ys else y :: insertSorted x ys

/-- Sort a list of strings, embedding the notebook's `sorted(...)` calls. -/
def sortStrings (l : List String) : List String := l.foldr insertSorted []

/-- The notebook's `sample_images` (cell 7): the sorted list of joined image
paths, given the file entries of the images directory. -/
def sample_images (entries : List String) : List String :=
  sortStrings (entries.map (fun f => joinPath IMAGES_FOLDER f))

/-- The notebook's `sample_masks` (cell 7): the sorted list of joined mask
paths, given the file entries of the masks directory. -/
def sample_masks (entries : List String) : List String :=
  sortStrings (entries.map (fun f => joinPath MASKS_FOLDER f))

/-- A decoded raster image: a grid of integer pixel values. -/
abbrev Image := List (List Nat)

/-- The `tf.one_hot` encoding at a single pixel (cell 7): a vector of length `depth` with a
one at index `v` and zeros elsewhere (all zeros when `v` is out of range). -/
def oneHot (depth v : Nat) : List ℚ :=
  (List.range depth).map (fun i => if i = v then 1 else 0)

/-- One-hot encoding of a whole mask image with depth 2, as in the notebook's
`masks_loaded` comprehension (cell 7). -/
def oneHotImage (img : Image) : List (List (List ℚ)) :=
  img.map (fun row => row.map (oneHot 2))

/-- The notebook's `images_loaded` (cell 7): each sorted image path decoded to
an image, with the decoder abstracted as a function argument. -/
def images_loaded (decode : String → Image) (entries : List String) : List Image :=
  (sample_images entries).map decode

/-- The notebook's `masks_loaded` (cell 7): each sorted mask path decoded and
one-hot encoded with depth 2. -/
def masks_loaded (decode : String → Image) (entries : List String) :
    List (List (List (List ℚ))) :=
  (sample_masks entries).map (fun p => oneHotImage (decode p))

/-- The positional pairing of training inputs and targets used by
`model.fit(images_loaded, masks_loaded, ...)` (cell 12): the i-th image is
trained against the i-th mask. -/
def trainingPairs (decodeImage decodeMask : String → Image)
    (imageEntries maskEntries : List String) :
    List (Image × List (List (List ℚ))) :=
  List.zip (images_loaded decodeImage imageEntries)
    (masks_loaded decodeMask maskEntries)

/-- The notebook's Keras model (cell 10): per-image standardization on input
shape (None, None, 1), a 16-filter 3x3 convolution, and a 2-filter 1x1
softmax convolution. -/
def notebookModel : KerasModel :=
  { inputShape := { height := none, width := none, channels := CHANNELS },
    layers := [Layer.perImageStandardization,
               Layer.conv2D 16 3 "linear",
               Layer.conv2D 2 1 "softmax"] }

/-- The notebook's `model_metadata` (cell 14). -/
def model_metadata : Option ModelMetadata :=
  ModelMetadata.from_params "Simple_Nuclei_SegmentationModel"
    "ConvertToMonochrome" "Gray16" ["Background", "Nucleus"] 8

/-- Mean of a list of rationals. -/
def listMean (xs : List ℚ) : ℚ := xs.sum / xs.length

/-- Population variance of a list of rationals. -/
def listVar (xs : List ℚ) : ℚ :=
  (xs.map (fun x => (x - listMean xs) ^ 2)).sum / xs.length

/-- Per-sample standardization semantics of the `PerImageStandardization`
layer, with the scale factor `s` (the standard deviation, characterized by
`s ^ 2 = listVar xs`) passed explicitly.
Modelled from the spec: "prepends a per-sample normalization step (scale each
input to zero mean/unit variance independently)"; the czmodel layer
implementation is not in this repository. -/
def standardize (xs : List ℚ) (s : ℚ) : List ℚ :=
  xs.map (fun x => (x - listMean xs) / s)

/-- Case analysis of `convert_from_model_spec`: either both preconditions hold
and the result is the explicit success record, or the call errors and leaves
the filesystem unchanged. -/
lemma convert_from_model_spec_cases (model_spec : ModelSpec)
    (output_path output_name : String) (spatial_dims : Option (Nat × Nat))
    (guid : String) (fs : FileSystem) :
    (model_spec.model_metadata.classes.length = outputChannels model_spec.model
      ∧ output_path ∈ fs.writableDirs
      ∧ convert_from_model_spec model_spec output_path output_name spatial_dims guid fs =
          { error := none,
            fs := { fs with archives := fs.archives ++
              [(joinPath output_path (output_name ++ ".czmodel"),
                buildArchive model_spec.model_metadata model_spec.model spatial_dims guid)] },
            modelAfter := some model_spec.model })
    ∨ ((convert_from_model_spec model_spec output_path output_name spatial_dims guid fs).error ≠ none
        ∧ (convert_from_model_spec model_spec output_path output_name spatial_dims guid fs).fs = fs) := by
  by_cases h1 : model_spec.model_metadata.classes.length = outputChannels model_spec.model
  · by_cases h2 : output_path ∈ fs.writableDirs
    · exact Or.inl ⟨h1, h2, by simp [convert_from_model_spec, h1, h2]⟩
    · refine Or.inr ⟨?_, ?_⟩ <;> simp [convert_from_model_spec, h1, h2]
  · refine Or.inr ⟨?_, ?_⟩ <;> simp [convert_from_model_spec, h1]

/-- C1: for every `ModelSpec` whose class list length equals the model's
output channel count (and a writable output directory), the export-from-spec
operation succeeds and writes exactly one archive file, named
`<base name>.czmodel`, in the output directory. -/
theorem convert_from_model_spec_success (model_spec : ModelSpec)
    (output_path output_name : String) (spatial_dims : Option (Nat × Nat))
    (guid : String) (fs : FileSystem)
    (hcls : model_spec.model_metadata.classes.length = outputChannels model_spec.model)
    (hw : output_path ∈ fs.writableDirs) :
    (convert_from_model_spec model_spec output_path output_name spatial_dims guid fs).error = none
    ∧ (convert_from_model_spec model_spec output_path output_name spatial_dims guid fs).fs.archives
        = fs.archives ++
          [(joinPath output_path (output_name ++ ".czmodel"),
            buildArchive model_spec.model_metadata model_spec.model spatial_dims guid)] := by
  constructor <;> simp [convert_from_model_spec, hcls, hw]

/-- Witness for C1 at the notebook's concrete inputs. -/
theorem convert_from_model_spec_success_witness :
    (convert_from_model_spec
        { model := notebookModel,
          model_metadata :=
            { name := "Simple_Nuclei_SegmentationModel",
              colorHandling := ColorHandling.convertToMonochrome,
              pixelType := PixelType.gray16,
              classes := ["Background", "Nucleus"], borderSize := 8 } }
        "./czmodel_output" "simple_nuclei_segmodel" (some (1024, 1024)) "guid-0"
        { archives := [], savedModels := [], documents := [],
          writableDirs := ["./czmodel_output"] }).error = none
    ∧ (convert_from_model_spec
        { model := notebookModel,
          model_metadata :=
            { name := "Simple_Nuclei_SegmentationModel",
              colorHandling := ColorHandling.convertToMonochrome,
              pixelType := PixelType.gray16,
              classes := ["Background", "Nucleus"], borderSize := 8 } }
        "./czmodel_output" "simple_nuclei_segmodel" (some (1024, 1024)) "guid-0"
        { archives := [], savedModels := [], documents := [],
          writableDirs := ["./czmodel_output"] }).fs.archives
        = [] ++
          [(joinPath "./czmodel_output" ("simple_nuclei_segmodel" ++ ".czmodel"),
            buildArchive
              { name := "Simple_Nuclei_SegmentationModel",
                colorHandling := ColorHandling.convertToMonochrome,
                pixelType := PixelType.gray16,
                classes := ["Background", "Nucleus"], borderSize := 8 }
              notebookModel (some (1024, 1024)) "guid-0")] :=
  convert_from_model_spec_success _ _ _ _ _ _ (by decide) (by decide)

/-- C2: for every `ModelSpec` whose class list length differs from the model's
output channel count, the export-from-spec operation fails with a validation
error and writes no file: the filesystem is unchanged, the validation having
happened before any write. -/
theorem convert_from_model_spec_mismatch (model_spec : ModelSpec)
    (output_path output_name : String) (spatial_dims : Option (Nat × Nat))
    (guid : String) (fs : FileSystem)
    (hne : model_spec.model_metadata.classes.length ≠ outputChannels model_spec.model) :
    (convert_from_model_spec model_spec output_path output_name spatial_dims guid fs).error
        = some (ExportError.validationError "class count mismatch")
    ∧ (convert_from_model_spec model_spec output_path output_name spatial_dims guid fs).fs = fs := by
  constructor <;> simp [convert_from_model_spec, hne]

/-- Witness for C2: a one-class metadata on the two-channel notebook model. -/
theorem convert_from_model_spec_mismatch_witness :
    (convert_from_model_spec
        { model := notebookModel,
          model_metadata :=
            { name := "bad", colorHandling := ColorHandling.convertToMonochrome,
              pixelType := PixelType.gray16, classes := ["Background"],
              borderSize := 0 } }
        "out" "m" none "guid-1"
        { archives := [], savedModels := [], documents := [],
          writableDirs := ["out"] }).error
      = some (ExportError.validationError "class count mismatch")
    ∧ (convert_from_model_spec
        { model := notebookModel,
          model_metadata :=
            { name := "bad", colorHandling := ColorHandling.convertToMonochrome,
              pixelType := PixelType.gray16, classes := ["Background"],
              borderSize := 0 } }
        "out" "m" none "guid-1"
        { archives := [], savedModels := [], documents := [],
          writableDirs := ["out"] }).fs
      = { archives := [], savedModels := [], documents := [],
          writableDirs := ["out"] } :=
  convert_from_model_spec_mismatch _ _ _ _ _ _ (by decide)

/-- C7: the export-from-spec operation never mutates the in-memory model
object: the model slot of the threaded state is returned unchanged, the
preprocessing-injection helper returns a new (distinct) model object, and when
spatial dimensions are supplied the archive serializes the wrapped copy rather
than the original. -/
theorem export_does_not_mutate_model (model_spec : ModelSpec)
    (output_path output_name : String) (spatial_dims : Option (Nat × Nat))
    (guid : String) (fs : FileSystem) :
    (convert_from_model_spec model_spec output_path output_name spatial_dims guid fs).modelAfter
        = some model_spec.model
    ∧ (∀ (m : KerasModel) (l : Option (List Layer)) (d : Option (Nat × Nat)),
        add_preprocessing_layers m l d ≠ m)
    ∧ (∀ d, spatial_dims = some d →
        (convert_from_model_spec model_spec output_path output_name spatial_dims guid fs).error = none →
        ∃ a, lastArchive
            (convert_from_model_spec model_spec output_path output_name spatial_dims guid fs).fs
              = some a
          ∧ archiveModel a = some (add_preprocessing_layers model_spec.model none (some d))) := by
  refine ⟨?_, ?_, ?_⟩
  · unfold convert_from_model_spec
    split
    · rfl
    · split <;> rfl
  · intro m l d h
    have h2 := congrArg (fun k => k.layers.length) h
    simp [add_preprocessing_layers] at h2
    omega
  · intro d hd hok
    subst hd
    rcases convert_from_model_spec_cases model_spec output_path output_name (some d) guid fs with
      ⟨h1, h2, heq⟩ | ⟨hne, _⟩
    · rw [heq]
      refine ⟨buildArchive model_spec.model_metadata model_spec.model (some d) guid, ?_, rfl⟩
      simp [lastArchive, List.getLast?_concat]
    · exact absurd hok hne

/-- Witness for C7 at concrete inputs with spatial dimensions supplied. -/
theorem export_does_not_mutate_model_witness :
    (convert_from_model_spec
        { model := notebookModel,
          model_metadata :=
            { name := "n", colorHandling := ColorHandling.convertToMonochrome,
              pixelType := PixelType.gray16, classes := ["Background", "Nucleus"],
              borderSize := 8 } }
        "out" "m" (some (1024, 1024)) "guid-2"
        { archives := [], savedModels := [], documents := [],
          writableDirs := ["out"] }).modelAfter = some notebookModel
    ∧ (∀ (m : KerasModel) (l : Option (List Layer)) (d : Option (Nat × Nat)),
        add_preprocessing_layers m l d ≠ m)
    ∧ (∃ a, lastArchive
          (convert_from_model_spec
            { model := notebookModel,
              model_metadata :=
                { name := "n", colorHandling := ColorHandling.convertToMonochrome,
                  pixelType := PixelType.gray16, classes := ["Background", "Nucleus"],
                  borderSize := 8 } }
            "out" "m" (some (1024, 1024)) "guid-2"
            { archives := [], savedModels := [], documents := [],
              writableDirs := ["out"] }).fs = some a
        ∧ archiveModel a
            = some (add_preprocessing_layers notebookModel none (some (1024, 1024)))) := by
  obtain ⟨hA, hB, hC⟩ := export_does_not_mutate_model
    { model := notebookModel,
      model_metadata :=
        { name := "n", colorHandling := ColorHandling.convertToMonochrome,
          pixelType := PixelType.gray16, classes := ["Background", "Nucleus"],
          borderSize := 8 } }
    "out" "m" (some (1024, 1024)) "guid-2"
    { archives := [], savedModels := [], documents := [], writableDirs := ["out"] }
  exact ⟨hA, hB, hC (1024, 1024) rfl (by decide)⟩

/-- C6: every archive produced by a successful export contains exactly three
members — the guid marker member, the serialized-model member and the XML
metadata member — all keyed by the same generated identifier as base name. -/
theorem export_archive_three_members (model_spec : ModelSpec)
    (output_path output_name : String) (spatial_dims : Option (Nat × Nat))
    (guid : String) (fs : FileSystem)
    (hok : (convert_from_model_spec model_spec output_path output_name spatial_dims guid fs).error = none) :
    ∃ a : Archive,
      lastArchive (convert_from_model_spec model_spec output_path output_name spatial_dims guid fs).fs
        = some a
      ∧ a.length = 3
      ∧ a = [(guid, ArchiveMember.marker guid),
             (guid ++ ".model", ArchiveMember.model (wrappedModel model_spec.model spatial_dims)),
             (guid ++ ".xml", ArchiveMember.xml (xmlOf model_spec.model_metadata guid))] := by
  rcases convert_from_model_spec_cases model_spec output_path output_name spatial_dims guid fs with
    ⟨h1, h2, heq⟩ | ⟨hne, _⟩
  · rw [heq]
    exact ⟨buildArchive model_spec.model_metadata model_spec.model spatial_dims guid,
      by simp [lastArchive, List.getLast?_concat], rfl, rfl⟩
  · exact absurd hok hne

/-- Witness for C6 at concrete inputs. -/
theorem export_archive_three_members_witness :
    ∃ a : Archive,
      lastArchive (convert_from_model_spec
          { model := notebookModel,
            model_metadata :=
              { name := "n", colorHandling := ColorHandling.convertToMonochrome,
                pixelType := PixelType.gray16, classes := ["Background", "Nucleus"],
                borderSize := 8 } }
          "out" "m" none "guid-3"
          { archives := [], savedModels := [], documents := [],
            writableDirs := ["out"] }).fs
        = some a
      ∧ a.length = 3
      ∧ a = [("guid-3", ArchiveMember.marker "guid-3"),
             ("guid-3" ++ ".model", ArchiveMember.model (wrappedModel notebookModel none)),
             ("guid-3" ++ ".xml", ArchiveMember.xml (xmlOf
               { name := "n", colorHandling := ColorHandling.convertToMonochrome,
                 pixelType := PixelType.gray16, classes := ["Background", "Nucleus"],
                 borderSize := 8 } "guid-3"))] :=
  export_archive_three_members _ _ _ _ _ _ (by decide)

/-- C10: the loaded training targets are one-hot encodings of mask pixels with
depth 2 (0 maps to [1, 0], 1 maps to [0, 1], length always 2), matching both
the notebook model's output channel count and the metadata class list
["Background", "Nucleus"]. -/
theorem one_hot_depth_two_invariant :
    (∀ v, (oneHot 2 v).length = 2)
    ∧ oneHot 2 0 = [1, 0]
    ∧ oneHot 2 1 = [0, 1]
    ∧ outputChannels notebookModel = 2
    ∧ ∃ md, model_metadata = some md
        ∧ md.classes = ["Background", "Nucleus"]
        ∧ md.classes.length = outputChannels notebookModel := by
  refine ⟨fun v => ?_, by decide, by decide, by decide, ⟨_, rfl, rfl, by decide⟩⟩
  simp [oneHot]

/-- C4: when target spatial dimensions (H, W) are supplied, the packaged
model's declared input accepts exactly height H and width W; when they are
omitted, the packaged model's input shape equals the original model's input
shape unchanged. -/
theorem export_input_shape (model_spec : ModelSpec)
    (output_path output_name : String) (h w : Nat) (guid : String) (fs : FileSystem)
    (hok1 : (convert_from_model_spec model_spec output_path output_name (some (h, w)) guid fs).error = none)
    (hok2 : (convert_from_model_spec model_spec output_path output_name none guid fs).error = none) :
    (∃ a m, lastArchive
          (convert_from_model_spec model_spec output_path output_name (some (h, w)) guid fs).fs
            = some a
        ∧ archiveModel a = some m
        ∧ m.inputShape.accepts h w = true
        ∧ ∀ hh ww, m.inputShape.accepts hh ww = true → hh = h ∧ ww = w)
    ∧ (∃ a m, lastArchive
          (convert_from_model_spec model_spec output_path output_name none guid fs).fs
            = some a
        ∧ archiveModel a = some m
        ∧ m.inputShape = model_spec.model.inputShape) := by
  constructor
  · rcases convert_from_model_spec_cases model_spec output_path output_name (some (h, w)) guid fs with
      ⟨hcl, hwr, heq⟩ | ⟨hne, _⟩
    · rw [heq]
      refine ⟨buildArchive model_spec.model_metadata model_spec.model (some (h, w)) guid,
        wrappedModel model_spec.model (some (h, w)), ?_, rfl, ?_, ?_⟩
      · simp [lastArchive, List.getLast?_concat]
      · simp [wrappedModel, add_preprocessing_layers, adaptShape, Shape.accepts]
      · intro hh ww hacc
        simp [wrappedModel, add_preprocessing_layers, adaptShape, Shape.accepts] at hacc
        exact ⟨hacc.1.symm, hacc.2.symm⟩
    · exact absurd hok1 hne
  · rcases convert_from_model_spec_cases model_spec output_path output_name none guid fs with
      ⟨hcl, hwr, heq⟩ | ⟨hne, _⟩
    · rw [heq]
      exact ⟨buildArchive model_spec.model_metadata model_spec.model none guid,
        model_spec.model, by simp [lastArchive, List.getLast?_concat], rfl, rfl⟩
    · exact absurd hok2 hne

/-- Witness for C4 at the notebook's dimensions (1024, 1024). -/
theorem export_input_shape_witness :
    (∃ a m, lastArchive
          (convert_from_model_spec
            { model := notebookModel,
              model_metadata :=
                { name := "n", colorHandling := ColorHandling.convertToMonochrome,
                  pixelType := PixelType.gray16, classes := ["Background", "Nucleus"],
                  borderSize := 8 } }
            "out" "m" (some (1024, 1024)) "guid-4"
            { archives := [], savedModels := [], documents := [],
              writableDirs := ["out"] }).fs
            = some a
        ∧ archiveModel a = some m
        ∧ m.inputShape.accepts 1024 1024 = true
        ∧ ∀ hh ww, m.inputShape.accepts hh ww = true → hh = 1024 ∧ ww = 1024)
    ∧ (∃ a m, lastArchive
          (convert_from_model_spec
            { model := notebookModel,
              model_metadata :=
                { name := "n", colorHandling := ColorHandling.convertToMonochrome,
                  pixelType := PixelType.gray16, classes := ["Background", "Nucleus"],
                  borderSize := 8 } }
            "out" "m" none "guid-4"
            { archives := [], savedModels := [], documents := [],
              writableDirs := ["out"] }).fs
            = some a
        ∧ archiveModel a = some m
        ∧ m.inputShape = notebookModel.inputShape) :=
  export_input_shape
    { model := notebookModel,
      model_metadata :=
        { name := "n", colorHandling := ColorHandling.convertToMonochrome,
          pixelType := PixelType.gray16, classes := ["Background", "Nucleus"],
          borderSize := 8 } }
    "out" "m" 1024 1024 "guid-4"
    { archives := [], savedModels := [], documents := [], writableDirs := ["out"] }
    (by decide) (by decide)

/-- Rendering a successfully parsed color-handling string gives back the
original string. -/
lemma renderColorHandling_parse (s : String) (c : ColorHandling)
    (h : parseColorHandling s = some c) : renderColorHandling c = s := by
  unfold parseColorHandling at h
  split_ifs at h with h1 h2
  · injection h with h3; subst h3; subst h1; rfl
  · injection h with h3; subst h3; subst h2; rfl

/-- Rendering a successfully parsed pixel-type string gives back the original
string. -/
lemma renderPixelType_parse (s : String) (p : PixelType)
    (h : parsePixelType s = some p) : renderPixelType p = s := by
  unfold parsePixelType at h
  split_ifs at h with h1 h2 h3
  · injection h with h4; subst h4; subst h1; rfl
  · injection h with h4; subst h4; subst h2; rfl
  · injection h with h4; subst h4; subst h3; rfl

/-- C3: for every metadata document accepted by the export-from-document
operation, decoding the XML member of the produced archive yields the same
BorderSize, ColorHandling, PixelType and Classes values (class order
preserved) that were supplied in the source document. -/
theorem json_export_xml_round_trip (model_spec_path output_path output_name : String)
    (spatial_dims : Option (Nat × Nat)) (guid : String) (fs : FileSystem)
    (doc : JsonDoc) (b : Nat) (chs pts : String) (cls : List String)
    (hdoc : fs.documents.lookup model_spec_path = some doc)
    (hb : getNum doc "BorderSize" = some b)
    (hch : getStr doc "ColorHandling" = some chs)
    (hpt : getStr doc "PixelType" = some pts)
    (hcls : getArr doc "Classes" = some cls)
    (hok : (convert_from_json_spec model_spec_path output_path output_name
              spatial_dims guid fs).error = none) :
    ∃ a x, lastArchive (convert_from_json_spec model_spec_path output_path output_name
              spatial_dims guid fs).fs = some a
      ∧ archiveXml a = some x
      ∧ x.borderSize = b ∧ x.colorHandling = chs ∧ x.pixelType = pts
      ∧ x.classes = cls := by
  unfold convert_from_json_spec at hok ⊢
  simp only [hdoc] at hok ⊢
  unfold parseModelMetadata at hok ⊢
  simp only [hb, hch, hpt, hcls] at hok ⊢
  cases hpc : parseColorHandling chs with
  | none => simp [hpc] at hok
  | some ch =>
    simp only [hpc] at hok ⊢
    cases hpp : parsePixelType pts with
    | none => simp [hpp] at hok
    | some pt =>
      simp only [hpp] at hok ⊢
      cases hmp : getStr doc "ModelPath" with
      | none => simp [hmp] at hok
      | some mp =>
        simp only [hmp] at hok ⊢
        cases hm : fs.savedModels.lookup mp with
        | none => simp [hm] at hok
        | some m =>
          simp only [hm] at hok ⊢
          rcases convert_from_model_spec_cases
              { model := m,
                model_metadata :=
                  { name := "", colorHandling := ch, pixelType := pt,
                    classes := cls, borderSize := b } }
              output_path output_name spatial_dims guid fs with
            ⟨hcl, hwr, heq⟩ | ⟨hne, _⟩
          · rw [heq]
            refine ⟨buildArchive
                { name := "", colorHandling := ch, pixelType := pt,
                  classes := cls, borderSize := b } m spatial_dims guid,
              xmlOf
                { name := "", colorHandling := ch, pixelType := pt,
                  classes := cls, borderSize := b } guid,
              ?_, rfl, rfl, ?_, ?_, rfl⟩
            · simp [lastArchive, List.getLast?_concat]
            · exact renderColorHandling_parse chs ch hpc
            · exact renderPixelType_parse pts pt hpp
          · exact absurd hok hne

/-- Witness for C3 on the notebook's JSON document (cell 17). -/
theorem json_export_xml_round_trip_witness :
    ∃ a x, lastArchive (convert_from_json_spec "model_spec.json" "model_from_json"
              "simple_nuclei_segmodel_from_json" none "guid-5"
              { archives := [],
                savedModels := [("saved_tf2_model_output", notebookModel)],
                documents := [("model_spec.json",
                  [("BorderSize", JsonValue.num 8),
                   ("ColorHandling", JsonValue.str "ConvertToMonochrome"),
                   ("PixelType", JsonValue.str "Gray16"),
                   ("Classes", JsonValue.arr ["Background", "Nuclei"]),
                   ("ModelPath", JsonValue.str "saved_tf2_model_output")])],
                writableDirs := ["model_from_json"] }).fs = some a
      ∧ archiveXml a = some x
      ∧ x.borderSize = 8 ∧ x.colorHandling = "ConvertToMonochrome"
      ∧ x.pixelType = "Gray16"
      ∧ x.classes = ["Background", "Nuclei"] :=
  json_export_xml_round_trip "model_spec.json" "model_from_json"
    "simple_nuclei_segmodel_from_json" none "guid-5"
    { archives := [],
      savedModels := [("saved_tf2_model_output", notebookModel)],
      documents := [("model_spec.json",
        [("BorderSize", JsonValue.num 8),
         ("ColorHandling", JsonValue.str "ConvertToMonochrome"),
         ("PixelType", JsonValue.str "Gray16"),
         ("Classes", JsonValue.arr ["Background", "Nuclei"]),
         ("ModelPath", JsonValue.str "saved_tf2_model_output")])],
      writableDirs := ["model_from_json"] }
    [("BorderSize", JsonValue.num 8),
     ("ColorHandling", JsonValue.str "ConvertToMonochrome"),
     ("PixelType", JsonValue.str "Gray16"),
     ("Classes", JsonValue.arr ["Background", "Nuclei"]),
     ("ModelPath", JsonValue.str "saved_tf2_model_output")]
    8 "ConvertToMonochrome" "Gray16" ["Background", "Nuclei"]
    (by decide) (by decide) (by decide) (by decide) (by decide) (by decide)

/-- Either `convert_from_model_spec` succeeds or it leaves the filesystem
unchanged. -/
lemma convert_from_model_spec_error_or_fs (model_spec : ModelSpec)
    (output_path output_name : String) (spatial_dims : Option (Nat × Nat))
    (guid : String) (fs : FileSystem) :
    (convert_from_model_spec model_spec output_path output_name spatial_dims guid fs).error = none
    ∨ (convert_from_model_spec model_spec output_path output_name spatial_dims guid fs).fs = fs := by
  rcases convert_from_model_spec_cases model_spec output_path output_name spatial_dims guid fs with
    ⟨_, _, heq⟩ | ⟨_, hfs⟩
  · left; rw [heq]
  · right; exact hfs

/-- Either `convert_from_json_spec` succeeds or it leaves the filesystem
unchanged. -/
lemma convert_from_json_spec_cases (model_spec_path output_path output_name : String)
    (spatial_dims : Option (Nat × Nat)) (guid : String) (fs : FileSystem) :
    (convert_from_json_spec model_spec_path output_path output_name spatial_dims guid fs).error = none
    ∨ (convert_from_json_spec model_spec_path output_path output_name spatial_dims guid fs).fs = fs := by
  unfold convert_from_json_spec
  split
  · exact Or.inr rfl
  · split
    · exact Or.inr rfl
    · split
      · exact Or.inr rfl
      · exact convert_from_model_spec_error_or_fs _ _ _ _ _ _

/-- C5: every failure of the export-from-document operation (missing
document, malformed or missing required key, non-existent referenced model
path, or a failure of the delegated export) aborts before any output file is
written: the filesystem is returned unchanged, with no partial artifact. -/
theorem convert_from_json_spec_failure_no_write
    (model_spec_path output_path output_name : String)
    (spatial_dims : Option (Nat × Nat)) (guid : String) (fs : FileSystem)
    (e : ExportError)
    (he : (convert_from_json_spec model_spec_path output_path output_name
            spatial_dims guid fs).error = some e) :
    (convert_from_json_spec model_spec_path output_path output_name
        spatial_dims guid fs).fs = fs := by
  rcases convert_from_json_spec_cases model_spec_path output_path output_name
      spatial_dims guid fs with hnone | hfs
  · rw [he] at hnone; exact Option.noConfusion hnone
  · exact hfs

/-- Witness for C5: a document whose `ModelPath` points to a non-existent
saved-model directory fails with a load error and writes nothing. -/
theorem convert_from_json_spec_failure_no_write_witness :
    (convert_from_json_spec "model_spec.json" "model_from_json" "m" none "guid-6"
        { archives := [], savedModels := [],
          documents := [("model_spec.json",
            [("BorderSize", JsonValue.num 8),
             ("ColorHandling", JsonValue.str "ConvertToMonochrome"),
             ("PixelType", JsonValue.str "Gray16"),
             ("Classes", JsonValue.arr ["Background", "Nuclei"]),
             ("ModelPath", JsonValue.str "saved_tf2_model_output")])],
          writableDirs := ["model_from_json"] }).fs
      = { archives := [], savedModels := [],
          documents := [("model_spec.json",
            [("BorderSize", JsonValue.num 8),
             ("ColorHandling", JsonValue.str "ConvertToMonochrome"),
             ("PixelType", JsonValue.str "Gray16"),
             ("Classes", JsonValue.arr ["Background", "Nuclei"]),
             ("ModelPath", JsonValue.str "saved_tf2_model_output")])],
          writableDirs := ["model_from_json"] } :=
  convert_from_json_spec_failure_no_write "model_spec.json" "model_from_json" "m"
    none "guid-6"
    { archives := [], savedModels := [],
      documents := [("model_spec.json",
        [("BorderSize", JsonValue.num 8),
         ("ColorHandling", JsonValue.str "ConvertToMonochrome"),
         ("PixelType", JsonValue.str "Gray16"),
         ("Classes", JsonValue.arr ["Background", "Nuclei"]),
         ("ModelPath", JsonValue.str "saved_tf2_model_output")])],
      writableDirs := ["model_from_json"] }
    (ExportError.loadError "saved_tf2_model_output") (by decide)

/-- C9: the data-loading step pairs training images with label masks by sorted
filename order: the i-th element of the sorted image-path list is matched with
the i-th element of the sorted mask-path list (and the mask is one-hot
encoded with depth 2). -/
theorem training_pairs_sorted_order (decodeImage decodeMask : String → Image)
    (imageEntries maskEntries : List String) (i : Nat)
    (h1 : i < (sample_images imageEntries).length)
    (h2 : i < (sample_masks maskEntries).length) :
    (trainingPairs decodeImage decodeMask imageEntries maskEntries)[i]?
      = some (decodeImage ((sample_images imageEntries).get ⟨i, h1⟩),
              oneHotImage (decodeMask ((sample_masks maskEntries).get ⟨i, h2⟩))) := by
  simp [trainingPairs, images_loaded, masks_loaded, List.getElem?_zip_eq_some,
    List.getElem?_map, List.getElem?_eq_getElem, h1, h2]

/-- Witness for C9 on single-file directories. -/
theorem training_pairs_sorted_order_witness :
    (trainingPairs (fun _ => [[0]]) (fun _ => [[1, 0]]) ["img0.png"] ["mask0.png"])[0]?
      = some ([[0]], [[[0, 1], [1, 0]]]) := by
  rw [training_pairs_sorted_order (fun _ => [[0]]) (fun _ => [[1, 0]])
    ["img0.png"] ["mask0.png"] 0 (by decide) (by decide)]
  decide

/-- Sum of a constant-shifted list. -/
lemma sum_map_sub_const (xs : List ℚ) (c : ℚ) :
    (xs.map (fun x => x - c)).sum = xs.sum - xs.length * c := by
  induction xs with
  | nil => simp
  | cons a t ih => simp [ih]; ring

/-- Centering a nonempty list at its mean gives sum zero. -/
lemma sum_map_centered (xs : List ℚ) (h : xs ≠ []) :
    (xs.map (fun x => x - listMean xs)).sum = 0 := by
  have hn : (xs.length : ℚ) ≠ 0 := by
    simpa using h
  rw [sum_map_sub_const, listMean]
  field_simp

/-- C8: the preprocessing-injection helper prepends the per-sample
standardization step (before the optional fixed-size input adapter and the
original model's layers), and that step scales each input independently to
zero mean and unit variance (for any input whose standard deviation `s` is
nonzero). -/
theorem add_preprocessing_prepends_standardization (m : KerasModel)
    (layers : Option (List Layer)) (spatial_dims : Option (Nat × Nat))
    (xs : List ℚ) (s : ℚ) (hne : xs ≠ []) (hs : s ≠ 0)
    (hvar : s ^ 2 = listVar xs) :
    (add_preprocessing_layers m layers spatial_dims).layers
      = Layer.perImageStandardization ::
          (adapterLayers spatial_dims ++ layers.getD [] ++ m.layers)
    ∧ listMean (standardize xs s) = 0
    ∧ listVar (standardize xs s) = 1 := by
  have hn : (xs.length : ℚ) ≠ 0 := by simpa using hne
  have hmean : listMean (standardize xs s) = 0 := by
    unfold listMean standardize
    have hsum : (xs.map (fun x => (x - listMean xs) / s)).sum
        = (xs.map (fun x => x - listMean xs)).sum / s := by
      simp only [div_eq_mul_inv, List.sum_map_mul_right]
    rw [List.length_map, hsum, sum_map_centered xs hne, zero_div, zero_div]
  refine ⟨rfl, hmean, ?_⟩
  have hv0 : listVar xs ≠ 0 := by
    rw [← hvar]; exact pow_ne_zero 2 hs
  have hS : (xs.map (fun x => (x - listMean xs) ^ 2)).sum = listVar xs * xs.length := by
    unfold listVar
    field_simp
  unfold listVar
  rw [hmean]
  simp only [sub_zero]
  unfold standardize
  simp only [List.map_map, Function.comp_def, List.length_map]
  have key : (xs.map (fun x => ((x - listMean xs) / s) ^ 2)).sum
      = (xs.map (fun x => (x - listMean xs) ^ 2)).sum * (s ^ 2)⁻¹ := by
    simp only [div_eq_mul_inv, mul_pow, inv_pow, List.sum_map_mul_right]
  rw [key, hS, hvar]
  field_simp

/-- Witness for C8 on the input [0, 2], whose variance is 1. -/
theorem add_preprocessing_prepends_standardization_witness :
    (add_preprocessing_layers notebookModel none none).layers
      = Layer.perImageStandardization ::
          (adapterLayers none ++ Option.getD none [] ++ notebookModel.layers)
    ∧ listMean (standardize [0, 2] 1) = 0
    ∧ listVar (standardize [0, 2] 1) = 1 :=
  add_preprocessing_prepends_standardization notebookModel none none [0, 2] 1
    (by decide) (by decide) (by norm_num [listVar, listMean])
